import Mathlib

/-!
Shallow embedding of the TechSuportBackend server (`src/backend/server.js`).

The source file contains two concatenated variants of the same Express
server.  Variant 1 (the heredoc at the top of the file) hashes passwords
with bcrypt and validates input in the handlers; variant 2 (the second
half of the file) stores passwords in plaintext, falls back to a default
signing secret, and leaves most validation to the mongoose schemas.
Both variants are embedded below, with `V1` / `V2` suffixes.

External library calls (bcryptjs, jsonwebtoken, mongoose persistence)
are modelled as pure Lean functions; each such model carries a doc
comment explaining what it stands for.  The mongo collections are
modelled as Lean lists in insertion order, and `Date.now` / ObjectId
generation as explicit parameters.
-/

namespace TSB

/-- An HTTP JSON response as the handlers produce it: status code plus the
`success` flag and `message` string of the JSON body. -/
structure Resp where
  status : Nat
  success : Bool
  message : String
deriving Repr, DecidableEq

/-- JavaScript truthiness test on an optional string body field:
`!x` is true when the field is absent (undefined) or the empty string. -/
def falsyS : Option String → Bool
  | none => true
  | some s => s == ""

/-- JavaScript truthiness test on an optional numeric body field:
`!x` is true when the field is absent (undefined) or the number 0. -/
def falsyN : Option Int → Bool
  | none => true
  | some n => n == 0

/-- Modelled from the spec: the digest part of a bcrypt-family hash
(the bcryptjs library is external to the repository).  The model keeps
what the spec relies on: the digest is a one-way function determined by
the plaintext, one output character per input character. -/
def bcryptDigest (p : String) : String :=
  String.mk (p.toList.map (fun c => Char.ofNat (65 + (c.toNat * 7 + 13) % 26)))

/-- Modelled from the spec: `bcrypt.hash(p, cost)` — a slow, salted,
one-way hash.  The output records the cost factor and the salt in the
standard `$2b$cost$salt` prefix followed by the digest, and is never
equal to the plaintext. -/
def bcryptHash (cost : Nat) (salt : String) (p : String) : String :=
  "$2b$" ++ toString cost ++ "$" ++ salt ++ "$" ++ bcryptDigest p

/-- Modelled from the spec: `bcrypt.compare(p, h)` rehashes `p` under the
salt recorded in `h` and compares digests; in this model the digest
depends only on the plaintext, so comparison checks that `h` carries the
bcrypt prefix and ends with the digest of `p`. -/
def bcryptCompare (p h : String) : Bool :=
  List.isPrefixOf "$2b$".toList h.toList
    && List.isSuffixOf (bcryptDigest p).toList h.toList

/-- A persisted `User` document (mongoose model `User`): `id` models the
ObjectId `_id` assigned on insertion. -/
structure User where
  id : Nat
  name : String
  email : String
  password : String
deriving Repr, DecidableEq

/-- `User.findOne({ email })`: first stored user with the given email. -/
def findOneByEmail (store : List User) (e : String) : Option User :=
  store.find? (fun u => u.email == e)

/-- Variant 1 `POST /api/register`: requires name, email and password
(JS truthiness), rejects an existing email with 400, otherwise persists
the user with `bcrypt.hash(password, 10)` and answers 201.  `newId` is
the ObjectId assigned by the store, `salt` the salt drawn by bcrypt. -/
def registerV1 (store : List User) (newId : Nat)
    (name email password : Option String) (salt : String) :
    Resp × List User :=
  if falsyS name || falsyS email || falsyS password then
    (⟨400, false, "Nombre, email y contraseña son requeridos"⟩, store)
  else
    match findOneByEmail store (email.getD "") with
    | some _ => (⟨400, false, "El usuario ya existe"⟩, store)
    | none =>
        (⟨201, true, "Usuario registrado con éxito"⟩,
         store ++ [⟨newId, name.getD "", email.getD "",
                    bcryptHash 10 salt (password.getD "")⟩])

/-- Variant 2 `POST /api/register`: no field validation and no hashing —
the plaintext password is stored as given.  Body fields are modelled as
present strings (every claim about this variant supplies them).  On
success the handler answers with the default status 200. -/
def registerV2 (store : List User) (newId : Nat)
    (name email password : String) : Resp × List User :=
  match findOneByEmail store email with
  | some _ => (⟨400, false, "El usuario ya existe"⟩, store)
  | none =>
      (⟨200, true, "Usuario registrado con éxito"⟩,
       store ++ [⟨newId, name, email, password⟩])

/-- Payload of a session token: `{ userId, email, iat, exp }` with times
in seconds. -/
structure Payload where
  userId : Nat
  email : String
  iat : Nat
  exp : Nat
deriving Repr, DecidableEq

/-- A signed token: payload plus signature tag. -/
structure Token where
  payload : Payload
  sig : Nat
deriving Repr, DecidableEq

/-- Modelled from the spec: the HMAC-SHA256-style tag over the payload
under the server-held secret (the jsonwebtoken library is external to
the repository).  Any concrete keyed mixing function represents it. -/
def hmacTag (secret : String) (pl : Payload) : Nat :=
  (secret.toList.foldl (fun a c => a * 131 + c.toNat) 7
    + pl.email.toList.foldl (fun a c => a * 131 + c.toNat) 3
    + pl.userId * 1009 + pl.iat * 31 + pl.exp * 17) % (2 ^ 32)

/-- Modelled from the spec:
`jwt.sign({userId, email}, secret, {expiresIn: "24h"})` issued at `now`
seconds — payload `{userId, email, iat = now, exp = now + 24*3600}`
signed under `secret`. -/
def jwtSign (secret : String) (userId : Nat) (email : String) (now : Nat) :
    Token :=
  ⟨⟨userId, email, now, now + 86400⟩,
   hmacTag secret ⟨userId, email, now, now + 86400⟩⟩

/-- The two failure kinds of `jwt.verify`: `JsonWebTokenError` on a bad
signature (the TokenInvalid kind) and `TokenExpiredError` (the
TokenExpired kind). -/
inductive JwtError where
  | invalidSignature
  | expired
deriving Repr, DecidableEq

/-- Modelled from the spec: `jwt.verify(token, secret)` checks the
signature first (mismatch is rejected as `invalidSignature` at any
time), then expiry (`exp ≤ now` is rejected as `expired`), and returns
the decoded payload otherwise. -/
def jwtVerify (secret : String) (t : Token) (now : Nat) :
    Except JwtError Payload :=
  if t.sig = hmacTag secret t.payload then
    if t.payload.exp ≤ now then .error .expired else .ok t.payload
  else .error .invalidSignature

/-- Variant 1 middleware `authenticateToken`: 401 when no bearer token is
presented, 403 "Token inválido" when `jwt.verify` reports any error
(expired and tampered alike), otherwise the decoded payload is attached
to the request. -/
def authenticateToken (secret : String) (tok : Option Token) (now : Nat) :
    Except Resp Payload :=
  match tok with
  | none => .error ⟨401, false, "Token requerido"⟩
  | some t =>
      match jwtVerify secret t now with
      | .error _ => .error ⟨403, false, "Token inválido"⟩
      | .ok pl => .ok pl

/-- Variant 2 `GET /api/verify`: 401 when no token, 401 "Token inválido"
when `jwt.verify` throws (the catch-all — expired and tampered alike),
404 when the user id of the payload is not in the store, 200 with the
user otherwise (the 200 body carries no message string). -/
def verifyV2 (secret : String) (store : List User) (tok : Option Token)
    (now : Nat) : Resp :=
  match tok with
  | none => ⟨401, false, "Token requerido"⟩
  | some t =>
      match jwtVerify secret t now with
      | .error _ => ⟨401, false, "Token inválido"⟩
      | .ok pl =>
          match store.find? (fun u => u.id == pl.userId) with
          | none => ⟨404, false, "Usuario no encontrado"⟩
          | some _ => ⟨200, true, ""⟩

/-- Variant 1 `POST /api/login`: requires email and password, answers
401 "Credenciales inválidas" both when no user has the email and when
`bcrypt.compare` fails, and otherwise 200 with a token signed over
`{userId: user._id, email: user.email}`. -/
def loginV1 (secret : String) (store : List User)
    (email password : Option String) (now : Nat) : Resp × Option Token :=
  if falsyS email || falsyS password then
    (⟨400, false, "Email y contraseña son requeridos"⟩, none)
  else
    match findOneByEmail store (email.getD "") with
    | none => (⟨401, false, "Credenciales inválidas"⟩, none)
    | some u =>
        if bcryptCompare (password.getD "") u.password then
          (⟨200, true, "Login exitoso"⟩,
           some (jwtSign secret u.id u.email now))
        else (⟨401, false, "Credenciales inválidas"⟩, none)

/-- Variant 2 `POST /api/login`: a single query
`User.findOne({ email, password })` on the plaintext fields; 401
"Credenciales inválidas" when it finds nothing, 200 with a token
otherwise. -/
def loginV2 (secret : String) (store : List User)
    (email password : String) (now : Nat) : Resp × Option Token :=
  match store.find? (fun u => u.email == email && u.password == password) with
  | none => (⟨401, false, "Credenciales inválidas"⟩, none)
  | some u =>
      (⟨200, true, "Login exitoso"⟩, some (jwtSign secret u.id u.email now))

/-- A persisted `Problem` document; `createdAt` models the
`Date.now` schema default at insertion time. -/
structure Problem where
  title : String
  description : String
  category : String
  urgency : String
  createdAt : Nat
deriving Repr, DecidableEq

/-- The handler normalization
`urgency.charAt(0).toUpperCase() + urgency.slice(1).toLowerCase()`. -/
def normalizeUrgency (u : String) : String :=
  match u.toList with
  | [] => ""
  | c :: rest => String.mk (c.toUpper :: rest.map Char.toLower)

/-- The fixed urgency set, shared by the handler check of variant 1 and
the `enum` of the mongoose schema. -/
def validUrgencies : List String := ["Baja", "Media", "Alta"]

/-- Variant 1 `POST /api/problems`: requires all four fields (JS
truthiness), normalizes the urgency casing, rejects a normalized value
outside `validUrgencies` with 400, otherwise persists and answers 201. -/
def createProblemV1 (store : List Problem)
    (title description category urgency : Option String) (now : Nat) :
    Resp × List Problem :=
  if falsyS title || falsyS description || falsyS category
      || falsyS urgency then
    (⟨400, false, "Todos los campos son requeridos"⟩, store)
  else
    let nu := normalizeUrgency (urgency.getD "")
    if validUrgencies.contains nu then
      (⟨201, true, "Problema guardado exitosamente"⟩,
       store ++ [⟨title.getD "", description.getD "", category.getD "",
                  nu, now⟩])
    else (⟨400, false, "Nivel de urgencia no válido"⟩, store)

/-- The mongoose schema check run by `problem.save()`: the three
`required` string fields must be present and nonempty (mongoose rejects
a missing or empty required string) and the urgency must be in the
schema `enum`. -/
def problemSchemaOk (title description category : Option String)
    (nu : String) : Bool :=
  !falsyS title && !falsyS description && !falsyS category
    && validUrgencies.contains nu

/-- Variant 2 `POST /api/problems`: no handler-level validation.  A
missing urgency makes `urgency.charAt(0)` throw a TypeError, caught by
the handler as 500; otherwise the urgency is normalized and the save is
attempted, and a mongoose schema rejection (missing required field or
urgency outside the `enum`) is also caught as 500. -/
def createProblemV2 (store : List Problem)
    (title description category urgency : Option String) (now : Nat) :
    Resp × List Problem :=
  match urgency with
  | none => (⟨500, false, "No se pudo guardar el problema"⟩, store)
  | some u =>
      let nu := normalizeUrgency u
      if problemSchemaOk title description category nu then
        (⟨201, true, "Problema guardado exitosamente"⟩,
         store ++ [⟨title.getD "", description.getD "", category.getD "",
                    nu, now⟩])
      else (⟨500, false, "No se pudo guardar el problema"⟩, store)

/-- A persisted `Review` document; `date` models the `Date.now` schema
default (the server-assigned creation timestamp, in milliseconds). -/
structure Review where
  userId : String
  userName : String
  problemDate : String
  problemDescription : String
  toolsUsed : String
  rating : Int
  comment : String
  date : Int
deriving Repr, DecidableEq

/-- Variant 1 `POST /api/reviews`: the handler requires every
destructured field by JS truthiness (so `rating: 0` counts as missing),
then `review.save()` runs the schema `min: 1, max: 5` check on the
rating, whose rejection the handler catches as 500; otherwise the
review is persisted with the server-assigned date and answered 201. -/
def createReviewV1 (store : List Review)
    (userId userName : Option String) (rating : Option Int)
    (comment problemDate problemDescription toolsUsed : Option String)
    (now : Int) : Resp × List Review :=
  if falsyS userId || falsyS userName || falsyN rating || falsyS comment
      || falsyS problemDate || falsyS problemDescription
      || falsyS toolsUsed then
    (⟨400, false, "Faltan campos requeridos"⟩, store)
  else
    let r := rating.getD 0
    if r < 1 || 5 < r then
      (⟨500, false, "Error al crear reseña"⟩, store)
    else
      (⟨201, true, "Reseña creada con éxito"⟩,
       store ++ [⟨userId.getD "", userName.getD "", problemDate.getD "",
                  problemDescription.getD "", toolsUsed.getD "", r,
                  comment.getD "", now⟩])

/-- `GET /api/reviews` (both variants): `Review.find().sort({date: -1})`
— every stored review, ordered by creation date descending. -/
def listReviews (store : List Review) : List Review :=
  store.mergeSort (fun a b => decide (b.date ≤ a.date))

/-- The process environment at startup: the three variables the server
reads, each possibly unset. -/
structure Env where
  jwtSecretVar : Option String
  mongoUriVar : Option String
  portVar : Option String
deriving Repr, DecidableEq

/-- The configuration the server runs with when startup does not abort. -/
structure Config where
  jwtSecret : String
  mongoUri : String
  port : String
deriving Repr, DecidableEq

/-- Variant 1 startup: `process.exit(1)` (modelled as `none`) unless both
`JWT_SECRET` and `MONGO_URI` are set and nonempty; `PORT` defaults to
3000. -/
def startupV1 (env : Env) : Option Config :=
  if falsyS env.jwtSecretVar || falsyS env.mongoUriVar then none
  else
    some ⟨env.jwtSecretVar.getD "", env.mongoUriVar.getD "",
          if falsyS env.portVar then "3000" else env.portVar.getD ""⟩

/-- Variant 2 startup: `JWT_SECRET` falls back to the insecure default
`"fallback_secret"`; only a missing `MONGO_URI` aborts the process (an
uncaught throw, modelled as `none`). -/
def startupV2 (env : Env) : Option Config :=
  if falsyS env.mongoUriVar then none
  else
    some ⟨if falsyS env.jwtSecretVar then "fallback_secret"
          else env.jwtSecretVar.getD "",
          env.mongoUriVar.getD "",
          if falsyS env.portVar then "3000" else env.portVar.getD ""⟩

/-! Helper lemmas. -/

/-- The modelled bcrypt digest has one character per plaintext character. -/
theorem bcryptDigest_length (p : String) :
    (bcryptDigest p).length = p.length :=
  List.length_map _ _

/-- The modelled bcrypt hash is never the plaintext (it is strictly
longer, carrying the cost-and-salt prefix). -/
theorem bcryptHash_ne_plaintext (cost : Nat) (salt p : String) :
    bcryptHash cost salt p ≠ p := by
  intro h
  have hl := congrArg String.length h
  simp only [bcryptHash, String.length_append, bcryptDigest_length] at hl
  have h4 : ("$2b$" : String).length = 4 := rfl
  have h1 : ("$" : String).length = 1 := rfl
  omega

/-- A variant 1 registration that answers 201 found no user with the
email and appended exactly one user carrying the bcrypt hash. -/
theorem registerV1_success (s : List User) (i : Nat) (n e p salt : String)
    (h : (registerV1 s i (some n) (some e) (some p) salt).1.status = 201) :
    findOneByEmail s e = none ∧
    (registerV1 s i (some n) (some e) (some p) salt).2 =
      s ++ [⟨i, n, e, bcryptHash 10 salt p⟩] := by
  by_cases hb : (falsyS (some n) || falsyS (some e) || falsyS (some p)) = true
  · simp [registerV1, hb] at h
  · cases hfind : findOneByEmail s e with
    | some u => simp [registerV1, hb, hfind] at h
    | none => simp [registerV1, hb, hfind]

/-- Every account variant 1 register persists carries the bcrypt hash of
the secret, which is never the plaintext secret. -/
theorem registerV1_stores_only_hash (s : List User) (i : Nat)
    (n e p salt : String)
    (h : (registerV1 s i (some n) (some e) (some p) salt).1.status = 201) :
    (registerV1 s i (some n) (some e) (some p) salt).2 =
      s ++ [⟨i, n, e, bcryptHash 10 salt p⟩] ∧ bcryptHash 10 salt p ≠ p :=
  ⟨(registerV1_success s i n e p salt h).2, bcryptHash_ne_plaintext 10 salt p⟩

/-! Claim theorems. -/

/-- Claim C1: the claim says every account ever created by register
stores only a one-way salted hash of the secret, never the plaintext.
Variant 2 register violates it: on an empty store it succeeds and the
persisted record carries the plaintext secret itself.  (Variant 1 does
store only the bcrypt hash — see `registerV1_stores_only_hash`.) -/
theorem c1_plaintext_stored :
    (registerV2 [] 1 "Ana" "ana@x.com" "hunter2").1.success = true ∧
    (registerV2 [] 1 "Ana" "ana@x.com" "hunter2").2 =
      [⟨1, "Ana", "ana@x.com", "hunter2"⟩] := by
  decide

/-- Claim C7: the claim says startup exits when either the signing
secret or the connection string is absent.  Variant 2 violates it for
the signing secret: with `JWT_SECRET` unset and `MONGO_URI` set it
starts with the insecure default `"fallback_secret"`, while variant 1
does exit on the same environment. -/
theorem c7_fallback_secret :
    startupV2 ⟨none, some "mongodb://h/db", none⟩ =
      some ⟨"fallback_secret", "mongodb://h/db", "3000"⟩ ∧
    startupV1 ⟨none, some "mongodb://h/db", none⟩ = none := by
  decide

/-- Claim C10: a variant 1 createReview call with rating 0 fails with
the missing-required-fields 400 error for every value of the remaining
fields — the JS truthiness check treats 0 as absent, so the schema range
check is never reached and nothing is persisted. -/
theorem c10_rating_zero_treated_missing (s : List Review)
    (uid un cm pd pdesc tu : String) (now : Int) :
    createReviewV1 s (some uid) (some un) (some 0) (some cm) (some pd)
        (some pdesc) (some tu) now =
      (⟨400, false, "Faltan campos requeridos"⟩, s) := by
  simp [createReviewV1, falsyN]

/-- Claim C6 counterexample: the claim says an urgency outside the
enumerated set is rejected with a 400 ValidationError, but variant 2
createProblem with urgency "urgente" (all fields present) answers 500,
not 400, because the rejection happens in the schema save. -/
theorem c6_counterexample :
    (createProblemV2 [] (some "t") (some "d") (some "c") (some "urgente")
        0).1 = ⟨500, false, "No se pudo guardar el problema"⟩ ∧
    (createProblemV2 [] (some "t") (some "d") (some "c") (some "urgente")
        0).1.status ≠ 400 ∧
    (createProblemV2 [] (some "t") (some "d") (some "c") (some "urgente")
        0).2 = [] := by
  decide

/-- Claim C3 counterexample: the claim says a token with a valid
signature verified after expiry fails with the distinct TokenExpired
kind and never as TokenInvalid.  In the code the middleware answers the
very same 403 "Token inválido" response for an expired
correctly-signed token as for a tampered one, so the expired case is
observably the TokenInvalid rejection. -/
theorem c3_counterexample :
    (jwtSign "k" 1 "a@x.com" 0).sig =
      hmacTag "k" (jwtSign "k" 1 "a@x.com" 0).payload ∧
    (jwtSign "k" 1 "a@x.com" 0).payload.exp ≤ 100000 ∧
    authenticateToken "k" (some (jwtSign "k" 1 "a@x.com" 0)) 100000 =
      Except.error ⟨403, false, "Token inválido"⟩ ∧
    authenticateToken "k"
        (some ⟨(jwtSign "k" 1 "a@x.com" 0).payload,
               (jwtSign "k" 1 "a@x.com" 0).sig + 1⟩) 100000 =
      Except.error ⟨403, false, "Token inválido"⟩ :=
  ⟨rfl, by decide, rfl, rfl⟩

/-- Claim C2: whenever the credential check of variant 1 login fails —
no stored user has the claimed email, or one does and the bcrypt
comparison rejects the secret — the full observable result is the one
constant 401 "Credenciales inválidas" response with no token, so a
caller cannot tell the two cases apart. -/
theorem c2_login_failure_uniform (secret : String) (store : List User)
    (e p : String) (now : Nat) (he : e ≠ "") (hp : p ≠ "")
    (hfail : ∀ u ∈ store, u.email = e → bcryptCompare p u.password = false) :
    loginV1 secret store (some e) (some p) now =
      (⟨401, false, "Credenciales inválidas"⟩, none) := by
  have he2 : falsyS (some e) = false := by simp [falsyS, he]
  have hp2 : falsyS (some p) = false := by simp [falsyS, hp]
  cases hfind : findOneByEmail store e with
  | none => simp [loginV1, he2, hp2, hfind]
  | some u =>
      have hmem : u ∈ store := List.mem_of_find?_eq_some hfind
      have hemail : u.email = e := by
        have := List.find?_some hfind
        simpa [findOneByEmail] using this
      simp [loginV1, he2, hp2, hfind, hfail u hmem hemail]

/-- Claim C2 witness: with one stored account, a wrong secret for its
email and any secret for an absent email produce the same response. -/
theorem c2_login_failure_uniform_witness :
    loginV1 "k" [⟨1, "Ana", "a@x.com", bcryptHash 10 "s" "pw"⟩]
        (some "a@x.com") (some "zz") 0 =
      (⟨401, false, "Credenciales inválidas"⟩, none) ∧
    loginV1 "k" [⟨1, "Ana", "a@x.com", bcryptHash 10 "s" "pw"⟩]
        (some "b@x.com") (some "zz") 0 =
      (⟨401, false, "Credenciales inválidas"⟩, none) :=
  ⟨c2_login_failure_uniform "k" [⟨1, "Ana", "a@x.com", bcryptHash 10 "s" "pw"⟩]
      "a@x.com" "zz" 0 (by decide) (by decide) (by decide),
   c2_login_failure_uniform "k" [⟨1, "Ana", "a@x.com", bcryptHash 10 "s" "pw"⟩]
      "b@x.com" "zz" 0 (by decide) (by decide) (by decide)⟩

/-- Claim C3 amended: the jwt library distinguishes the two failure
kinds — on a valid signature past expiry it reports the expired kind
(never the bad-signature kind), and a signature mismatch is rejected as
such at any time — but both handlers of the repository map every
verification failure to one generic invalid-token response (403 in the
variant 1 middleware, 401 in variant 2 verify), so the distinction is
not observable to a caller. -/
theorem c3_amended (secret : String) (t : Token) (now : Nat) :
    (t.sig = hmacTag secret t.payload → t.payload.exp ≤ now →
      jwtVerify secret t now = Except.error JwtError.expired) ∧
    (t.sig ≠ hmacTag secret t.payload →
      jwtVerify secret t now = Except.error JwtError.invalidSignature) ∧
    (∀ err, jwtVerify secret t now = Except.error err →
      authenticateToken secret (some t) now =
        Except.error ⟨403, false, "Token inválido"⟩) ∧
    (∀ err, jwtVerify secret t now = Except.error err →
      ∀ store, verifyV2 secret store (some t) now =
        ⟨401, false, "Token inválido"⟩) := by
  refine ⟨fun hs hx => ?_, fun hs => ?_, fun err herr => ?_,
    fun err herr store => ?_⟩
  · simp [jwtVerify, hs, hx]
  · simp [jwtVerify, hs]
  · simp [authenticateToken, herr]
  · simp [verifyV2, herr]

/-- Claim C3 amended witness: the concrete expired token of the
counterexample is reported expired by the library and generically
rejected by the middleware. -/
theorem c3_amended_witness :
    jwtVerify "k" (jwtSign "k" 1 "a@x.com" 0) 100000 =
      Except.error JwtError.expired ∧
    authenticateToken "k" (some (jwtSign "k" 1 "a@x.com" 0)) 100000 =
      Except.error ⟨403, false, "Token inválido"⟩ :=
  ⟨(c3_amended "k" (jwtSign "k" 1 "a@x.com" 0) 100000).1 rfl (by decide),
   (c3_amended "k" (jwtSign "k" 1 "a@x.com" 0) 100000).2.2.1
     JwtError.expired
     ((c3_amended "k" (jwtSign "k" 1 "a@x.com" 0) 100000).1 rfl
       (by decide))⟩

/-- Claim C5: a token issued by login signing at time `now` and
presented to the variant 1 middleware at any time before the 24-hour
expiry verifies and yields exactly the original account id and email. -/
theorem c5_issue_verify_roundtrip (secret : String) (uid : Nat)
    (email : String) (now t : Nat) (h : t < now + 86400) :
    authenticateToken secret (some (jwtSign secret uid email now)) t =
      Except.ok ⟨uid, email, now, now + 86400⟩ := by
  have hx : ¬ ((now + 86400 : Nat) ≤ t) := by omega
  simp [authenticateToken, jwtVerify, jwtSign, hx]

/-- Claim C5 witness: a concrete issue-then-verify round trip. -/
theorem c5_issue_verify_roundtrip_witness :
    authenticateToken "k" (some (jwtSign "k" 7 "ana@x.com" 1000)) 5000 =
      Except.ok ⟨7, "ana@x.com", 1000, 1000 + 86400⟩ :=
  c5_issue_verify_roundtrip "k" 7 "ana@x.com" 1000 5000 (by decide)

/-- Claim C4: after a variant 1 registration of email `e` succeeds, a
second well-formed registration of the same email answers exactly the
400 duplicate-user error, leaves the store unchanged, and the store
holds exactly one account with that email. -/
theorem c4_duplicate_identity (s : List User) (i1 i2 : Nat)
    (n e p n2 p2 salt salt2 : String) (hn2 : n2 ≠ "") (hp2 : p2 ≠ "")
    (h1 : (registerV1 s i1 (some n) (some e) (some p) salt).1.status = 201) :
    (registerV1 (registerV1 s i1 (some n) (some e) (some p) salt).2 i2
        (some n2) (some e) (some p2) salt2).1 =
      ⟨400, false, "El usuario ya existe"⟩ ∧
    (registerV1 (registerV1 s i1 (some n) (some e) (some p) salt).2 i2
        (some n2) (some e) (some p2) salt2).2 =
      (registerV1 s i1 (some n) (some e) (some p) salt).2 ∧
    ((registerV1 s i1 (some n) (some e) (some p) salt).2.filter
        (fun u => u.email == e)).length = 1 := by
  obtain ⟨hfind, hstore⟩ := registerV1_success s i1 n e p salt h1
  have he : e ≠ "" := by
    intro hee
    simp [registerV1, falsyS, hee] at h1
  have hn2b : falsyS (some n2) = false := by simp [falsyS, hn2]
  have hp2b : falsyS (some p2) = false := by simp [falsyS, hp2]
  have heb : falsyS (some e) = false := by simp [falsyS, he]
  have hfindn : List.find? (fun u => u.email == e) s = none := by
    simpa [findOneByEmail] using hfind
  have hnone : ∀ u ∈ s, ¬ (u.email == e) = true :=
    List.find?_eq_none.1 hfindn
  have hfind2 :
      findOneByEmail (s ++ [⟨i1, n, e, bcryptHash 10 salt p⟩]) e =
        some ⟨i1, n, e, bcryptHash 10 salt p⟩ := by
    unfold findOneByEmail
    rw [List.find?_append, hfindn]
    simp
  rw [hstore]
  refine ⟨?_, ?_, ?_⟩
  · simp [registerV1, hn2b, hp2b, heb, hfind2]
  · simp [registerV1, hn2b, hp2b, heb, hfind2]
  · rw [List.filter_append]
    have hnil : s.filter (fun u => u.email == e) = [] :=
      List.filter_eq_nil_iff.2 (fun a ha => by simp [hnone a ha])
    simp [hnil]

/-- Claim C4 witness: a concrete duplicate registration. -/
theorem c4_duplicate_identity_witness :
    (registerV1 (registerV1 [] 1 (some "Ana") (some "a@x.com") (some "pw")
        "s").2 2 (some "Bob") (some "a@x.com") (some "qq") "t").1 =
      ⟨400, false, "El usuario ya existe"⟩ ∧
    (registerV1 (registerV1 [] 1 (some "Ana") (some "a@x.com") (some "pw")
        "s").2 2 (some "Bob") (some "a@x.com") (some "qq") "t").2 =
      (registerV1 [] 1 (some "Ana") (some "a@x.com") (some "pw") "s").2 ∧
    ((registerV1 [] 1 (some "Ana") (some "a@x.com") (some "pw")
        "s").2.filter (fun u => u.email == "a@x.com")).length = 1 :=
  c4_duplicate_identity [] 1 2 "Ana" "a@x.com" "pw" "Bob" "qq" "s" "t"
    (by decide) (by decide) (by decide)

/-- Claim C6 amended: both variants case-normalize the urgency, and a
well-formed createProblem succeeds exactly when the normalized value is
in the fixed set; "alta" normalizes to "Alta" and is accepted and
"urgente" is rejected.  But only variant 1 rejects an out-of-set value
with the 400 validation error — variant 2 rejects it in the schema save
and answers 500. -/
theorem c6_amended (s : List Problem) (ti d c u : String) (now : Nat)
    (hti : ti ≠ "") (hd : d ≠ "") (hc : c ≠ "") (hu : u ≠ "") :
    (validUrgencies.contains (normalizeUrgency u) = true →
      createProblemV1 s (some ti) (some d) (some c) (some u) now =
        (⟨201, true, "Problema guardado exitosamente"⟩,
         s ++ [⟨ti, d, c, normalizeUrgency u, now⟩]) ∧
      createProblemV2 s (some ti) (some d) (some c) (some u) now =
        (⟨201, true, "Problema guardado exitosamente"⟩,
         s ++ [⟨ti, d, c, normalizeUrgency u, now⟩])) ∧
    (validUrgencies.contains (normalizeUrgency u) = false →
      createProblemV1 s (some ti) (some d) (some c) (some u) now =
        (⟨400, false, "Nivel de urgencia no válido"⟩, s) ∧
      createProblemV2 s (some ti) (some d) (some c) (some u) now =
        (⟨500, false, "No se pudo guardar el problema"⟩, s)) ∧
    normalizeUrgency "alta" = "Alta" ∧
    validUrgencies.contains (normalizeUrgency "alta") = true ∧
    validUrgencies.contains (normalizeUrgency "urgente") = false := by
  have htib : falsyS (some ti) = false := by simp [falsyS, hti]
  have hdb : falsyS (some d) = false := by simp [falsyS, hd]
  have hcb : falsyS (some c) = false := by simp [falsyS, hc]
  have hub : falsyS (some u) = false := by simp [falsyS, hu]
  refine ⟨fun hin => ?_, fun hout => ?_, by decide, by decide, by decide⟩
  · have hin2 : normalizeUrgency u ∈ validUrgencies := by simpa using hin
    constructor
    · simp [createProblemV1, htib, hdb, hcb, hub, hin2]
    · simp [createProblemV2, problemSchemaOk, htib, hdb, hcb, hub, hin2]
  · have hout2 : normalizeUrgency u ∉ validUrgencies := by simpa using hout
    constructor
    · simp [createProblemV1, htib, hdb, hcb, hub, hout2]
    · simp [createProblemV2, problemSchemaOk, htib, hdb, hcb, hub, hout2]

/-- Claim C6 amended witness: urgency "alta" is normalized to "Alta"
and accepted by both variants on concrete input. -/
theorem c6_amended_witness :
    createProblemV1 [] (some "t") (some "d") (some "c") (some "alta") 9 =
      (⟨201, true, "Problema guardado exitosamente"⟩,
       [⟨"t", "d", "c", "Alta", 9⟩]) ∧
    createProblemV2 [] (some "t") (some "d") (some "c") (some "alta") 9 =
      (⟨201, true, "Problema guardado exitosamente"⟩,
       [⟨"t", "d", "c", "Alta", 9⟩]) :=
  (c6_amended [] "t" "d" "c" "alta" 9 (by decide) (by decide) (by decide)
    (by decide)).1 (by decide)

/-- Claim C8: listReviews returns a permutation of the whole review
store (everything, nothing more, no pagination) ordered by the
server-assigned creation date descending. -/
theorem c8_listReviews_sorted_perm (s : List Review) :
    (listReviews s).Perm s ∧
    List.Pairwise (fun a b : Review => b.date ≤ a.date) (listReviews s) := by
  constructor
  · exact List.mergeSort_perm s _
  · have h := @List.sorted_mergeSort Review
      (fun a b : Review => decide (b.date ≤ a.date))
      (fun a b c h1 h2 => by
        simp only [decide_eq_true_eq] at h1 h2 ⊢; omega)
      (fun a b => by
        simp only [Bool.or_eq_true, decide_eq_true_eq]; omega)
      s
    exact h.imp (fun hab => by simpa using hab)

/-- Variant 2 register enforces the same email uniqueness: after a
successful registration, registering the same email again is rejected
with the duplicate error and exactly one account with it is stored. -/
theorem registerV2_duplicate (s : List User) (i1 i2 : Nat)
    (n e p n2 p2 : String)
    (h1 : (registerV2 s i1 n e p).1.success = true) :
    (registerV2 (registerV2 s i1 n e p).2 i2 n2 e p2).1 =
      ⟨400, false, "El usuario ya existe"⟩ ∧
    ((registerV2 s i1 n e p).2.filter (fun u => u.email == e)).length = 1 := by
  cases hfind : findOneByEmail s e with
  | some u => simp [registerV2, hfind] at h1
  | none =>
      have hstore : (registerV2 s i1 n e p).2 = s ++ [⟨i1, n, e, p⟩] := by
        simp [registerV2, hfind]
      have hfindn : List.find? (fun u => u.email == e) s = none := by
        simpa [findOneByEmail] using hfind
      have hfind2 : findOneByEmail (s ++ [⟨i1, n, e, p⟩]) e =
          some ⟨i1, n, e, p⟩ := by
        unfold findOneByEmail
        rw [List.find?_append, hfindn]
        simp
      rw [hstore]
      refine ⟨by simp [registerV2, hfind2], ?_⟩
      rw [List.filter_append]
      have hnone := List.find?_eq_none.1 hfindn
      have hnil : s.filter (fun u => u.email == e) = [] :=
        List.filter_eq_nil_iff.2 (fun a ha => by simp [hnone a ha])
      simp [hnil]

/-- Variant 2 login runs one combined plaintext query, so every
credential failure is the same 401 response by construction. -/
theorem loginV2_failure_uniform (secret : String) (store : List User)
    (e p : String) (now : Nat)
    (h : store.find? (fun u => u.email == e && u.password == p) = none) :
    loginV2 secret store e p now =
      (⟨401, false, "Credenciales inválidas"⟩, none) := by
  simp [loginV2, h]

/-- Claim C9: whenever variant 1 register fails — a missing field or an
existing account with the same email — the credential store is returned
unchanged. -/
theorem c9_register_atomic (s : List User) (i : Nat)
    (name email password : Option String) (salt : String)
    (hfail : (registerV1 s i name email password salt).1.success = false) :
    (registerV1 s i name email password salt).2 = s := by
  by_cases hb : (falsyS name || falsyS email || falsyS password) = true
  · simp [registerV1, hb]
  · cases hfind : findOneByEmail s (email.getD "") with
    | some u => simp [registerV1, hb, hfind]
    | none => simp [registerV1, hb, hfind] at hfail

/-- Claim C9 witness: a duplicate registration fails and leaves the
store as it was. -/
theorem c9_register_atomic_witness :
    (registerV1 [⟨1, "Ana", "a@x.com", "h"⟩] 2 (some "Bob")
        (some "a@x.com") (some "pw") "s").2 =
      [⟨1, "Ana", "a@x.com", "h"⟩] :=
  c9_register_atomic [⟨1, "Ana", "a@x.com", "h"⟩] 2 (some "Bob")
    (some "a@x.com") (some "pw") "s" (by decide)

end TSB
